import Mathlib

/-!
Shallow embedding of the discord-guildpeek library core: the zod schema
validator (src/api/v9_schema.ts), the response transformer and asset
locators (src/api/v9.ts), the animated-variant locator (ImageGifgetter),
and the invite-id extraction helper (extractDiscordInviteId).

JSON numbers are modelled as Int (no claim depends on fractional values).
JavaScript truthiness tests occurring in the source (size, splash, banner,
global_name, accent_color, banner_color, expires_at) are modelled
explicitly: a number is falsy iff it is 0, a string is falsy iff it is
empty, null/absent is falsy, objects are always truthy.
-/

namespace GuildPeek

/-- Decoded JSON values, as produced by response.json(). -/
inductive Json where
  | null
  | bool (b : Bool)
  | num (n : Int)
  | str (s : String)
  | arr (elems : List Json)
  | obj (fields : List (String × Json))

/-- Primitive zod combinator z.string(). -/
def parseStr : Json → Option String
  | .str s => some s
  | _ => none

/-- Primitive zod combinator z.number() (numbers modelled as Int). -/
def parseNum : Json → Option Int
  | .num n => some n
  | _ => none

/-- Primitive zod combinator z.boolean(). -/
def parseBool : Json → Option Bool
  | .bool b => some b
  | _ => none

/-- Key lookup in a JSON object (first occurrence). -/
def getField (o : List (String × Json)) (k : String) : Option Json :=
  o.lookup k

/-- A required field: the key must be present and its value must parse. -/
def reqField (p : Json → Option α) (o : List (String × Json)) (k : String) : Option α :=
  (getField o k).bind p

/-- z.T().nullable(): the key must be present; null maps to none. -/
def reqNullable (p : Json → Option α) (o : List (String × Json)) (k : String) :
    Option (Option α) :=
  (getField o k).bind fun j =>
    match j with
    | .null => some none
    | _ => (p j).map some

/-- z.T().optional(): a missing key maps to none; a present value must parse
(null is not accepted unless T accepts it). -/
def optField (p : Json → Option α) (o : List (String × Json)) (k : String) :
    Option (Option α) :=
  match getField o k with
  | none => some none
  | some j => (p j).map some

/-- z.T().optional().nullable(): missing and null both map to none. -/
def optNullable (p : Json → Option α) (o : List (String × Json)) (k : String) :
    Option (Option α) :=
  match getField o k with
  | none => some none
  | some .null => some none
  | some j => (p j).map some

/-- z.unknown() (also z.unknown().nullable()): accepts any value, including a
missing key (unknown admits undefined); the raw value is kept opaque. -/
def unknownField (o : List (String × Json)) (k : String) : Option Json :=
  getField o k

/-- z.array(z.string()). -/
def parseStrArray : Json → Option (List String)
  | .arr xs => xs.mapM parseStr
  | _ => none

/-- z.array(z.unknown()): must be an array, elements kept opaque. -/
def parseRawArray : Json → Option (List Json)
  | .arr xs => some xs
  | _ => none

/-- Parsed form of ClanSchema. -/
structure ClanV9 where
  identity_guild_id : String
  identity_enabled : Bool
  tag : String
  badge : String

/-- Parsed form of AvatarDecorationSchema. -/
structure AvatarDecorationV9 where
  asset : String
  sku_id : String
  expires_at : Int

/-- Parsed form of UserSchema. -/
structure UserV9 where
  id : String
  username : String
  avatar : Option String
  discriminator : String
  public_flags : Int
  flags : Int
  banner : Option String
  accent_color : Option Int
  global_name : Option String
  avatar_decoration_data : Option AvatarDecorationV9
  collectibles : Option Json
  display_name_styles : Option Json
  banner_color : Option String
  clan : Option ClanV9
  primary_guild : Option ClanV9

/-- Parsed form of GuildSchema. -/
structure GuildV9 where
  id : String
  name : String
  splash : Option String
  banner : Option String
  description : Option String
  icon : Option String
  features : List String
  verification_level : Int
  vanity_url_code : Option String
  nsfw_level : Int
  nsfw : Bool
  premium_subscription_count : Int
  premium_tier : Int

/-- Parsed form of ChannelSchema. -/
structure ChannelV9 where
  id : String
  type : Int
  name : String

/-- Parsed form of ProfileSchema. -/
structure ProfileV9 where
  id : String
  name : String
  icon_hash : Option String
  member_count : Int
  online_count : Int
  description : Option String
  banner_hash : Option String
  game_application_ids : List String
  game_activity : Option Json
  tag : Option String
  badge : Int
  badge_color_primary : String
  badge_color_secondary : String
  badge_hash : Option String
  traits : List Json
  features : List String
  visibility : Int
  custom_banner_hash : Option String
  premium_subscription_count : Int
  premium_tier : Int

/-- Parsed form of DiscordInviteSchemaV9 (the validated upstream payload). -/
structure DiscordInviteV9 where
  type : Int
  code : String
  inviter : UserV9
  expires_at : Option String
  guild : GuildV9
  guild_id : String
  channel : ChannelV9
  profile : ProfileV9
  approximate_member_count : Option Int
  approximate_presence_count : Option Int

/-- ClanSchema from v9_schema.ts. -/
def ClanSchema (j : Json) : Option ClanV9 :=
  match j with
  | .obj o => do
    let identity_guild_id ← reqField parseStr o "identity_guild_id"
    let identity_enabled ← reqField parseBool o "identity_enabled"
    let tag ← reqField parseStr o "tag"
    let badge ← reqField parseStr o "badge"
    pure { identity_guild_id, identity_enabled, tag, badge }
  | _ => none

/-- AvatarDecorationSchema from v9_schema.ts. -/
def AvatarDecorationSchema (j : Json) : Option AvatarDecorationV9 :=
  match j with
  | .obj o => do
    let asset ← reqField parseStr o "asset"
    let sku_id ← reqField parseStr o "sku_id"
    let expires_at ← reqField parseNum o "expires_at"
    pure { asset, sku_id, expires_at }
  | _ => none

/-- First half of UserSchema's fields (split into two helpers only to keep
each monadic chain short). -/
def userFieldsHead (o : List (String × Json)) :
    Option (String × String × Option String × String × Int × Int × Option String) := do
  let id ← reqField parseStr o "id"
  let username ← reqField parseStr o "username"
  let avatar ← reqNullable parseStr o "avatar"
  let discriminator ← reqField parseStr o "discriminator"
  let public_flags ← reqField parseNum o "public_flags"
  let flags ← reqField parseNum o "flags"
  let banner ← reqNullable parseStr o "banner"
  pure (id, username, avatar, discriminator, public_flags, flags, banner)

/-- Second half of UserSchema's fields. -/
def userFieldsTail (o : List (String × Json)) :
    Option (Option Int × Option String × Option AvatarDecorationV9 ×
      Option String × Option ClanV9 × Option ClanV9) := do
  let accent_color ← reqNullable parseNum o "accent_color"
  let global_name ← reqNullable parseStr o "global_name"
  let avatar_decoration_data ← optNullable AvatarDecorationSchema o "avatar_decoration_data"
  let banner_color ← reqNullable parseStr o "banner_color"
  let clan ← optNullable ClanSchema o "clan"
  let primary_guild ← optNullable ClanSchema o "primary_guild"
  pure (accent_color, global_name, avatar_decoration_data, banner_color, clan, primary_guild)

/-- UserSchema from v9_schema.ts. -/
def UserSchema (j : Json) : Option UserV9 :=
  match j with
  | .obj o => do
    let (id, username, avatar, discriminator, public_flags, flags, banner) ← userFieldsHead o
    let (accent_color, global_name, avatar_decoration_data, banner_color, clan, primary_guild) ←
      userFieldsTail o
    let collectibles := unknownField o "collectibles"
    let display_name_styles := unknownField o "display_name_styles"
    pure { id, username, avatar, discriminator, public_flags, flags, banner,
           accent_color, global_name, avatar_decoration_data, collectibles,
           display_name_styles, banner_color, clan, primary_guild }
  | _ => none

/-- First half of GuildSchema's fields. -/
def guildFieldsHead (o : List (String × Json)) :
    Option (String × String × Option String × Option String × Option String ×
      Option String × List String) := do
  let id ← reqField parseStr o "id"
  let name ← reqField parseStr o "name"
  let splash ← reqNullable parseStr o "splash"
  let banner ← reqNullable parseStr o "banner"
  let description ← reqNullable parseStr o "description"
  let icon ← reqNullable parseStr o "icon"
  let features ← reqField parseStrArray o "features"
  pure (id, name, splash, banner, description, icon, features)

/-- Second half of GuildSchema's fields. -/
def guildFieldsTail (o : List (String × Json)) :
    Option (Int × Option String × Int × Bool × Int × Int) := do
  let verification_level ← reqField parseNum o "verification_level"
  let vanity_url_code ← reqNullable parseStr o "vanity_url_code"
  let nsfw_level ← reqField parseNum o "nsfw_level"
  let nsfw ← reqField parseBool o "nsfw"
  let premium_subscription_count ← reqField parseNum o "premium_subscription_count"
  let premium_tier ← reqField parseNum o "premium_tier"
  pure (verification_level, vanity_url_code, nsfw_level, nsfw,
    premium_subscription_count, premium_tier)

/-- GuildSchema from v9_schema.ts. -/
def GuildSchema (j : Json) : Option GuildV9 :=
  match j with
  | .obj o => do
    let (id, name, splash, banner, description, icon, features) ← guildFieldsHead o
    let (verification_level, vanity_url_code, nsfw_level, nsfw,
      premium_subscription_count, premium_tier) ← guildFieldsTail o
    pure { id, name, splash, banner, description, icon, features,
           verification_level, vanity_url_code, nsfw_level, nsfw,
           premium_subscription_count, premium_tier }
  | _ => none

/-- ChannelSchema from v9_schema.ts. -/
def ChannelSchema (j : Json) : Option ChannelV9 :=
  match j with
  | .obj o => do
    let id ← reqField parseStr o "id"
    let type ← reqField parseNum o "type"
    let name ← reqField parseStr o "name"
    pure { id, type, name }
  | _ => none

/-- First third of ProfileSchema's fields. -/
def profileFieldsHead (o : List (String × Json)) :
    Option (String × String × Option String × Int × Int × Option String ×
      Option String) := do
  let id ← reqField parseStr o "id"
  let name ← reqField parseStr o "name"
  let icon_hash ← reqNullable parseStr o "icon_hash"
  let member_count ← reqField parseNum o "member_count"
  let online_count ← reqField parseNum o "online_count"
  let description ← reqNullable parseStr o "description"
  let banner_hash ← reqNullable parseStr o "banner_hash"
  pure (id, name, icon_hash, member_count, online_count, description, banner_hash)

/-- Second third of ProfileSchema's fields. -/
def profileFieldsMid (o : List (String × Json)) :
    Option (List String × Option String × Int × String × String × Option String) := do
  let game_application_ids ← reqField parseStrArray o "game_application_ids"
  let tag ← reqNullable parseStr o "tag"
  let badge ← reqField parseNum o "badge"
  let badge_color_primary ← reqField parseStr o "badge_color_primary"
  let badge_color_secondary ← reqField parseStr o "badge_color_secondary"
  let badge_hash ← reqNullable parseStr o "badge_hash"
  pure (game_application_ids, tag, badge, badge_color_primary,
    badge_color_secondary, badge_hash)

/-- Last third of ProfileSchema's fields. -/
def profileFieldsTail (o : List (String × Json)) :
    Option (List Json × List String × Int × Option String × Int × Int) := do
  let traits ← reqField parseRawArray o "traits"
  let features ← reqField parseStrArray o "features"
  let visibility ← reqField parseNum o "visibility"
  let custom_banner_hash ← reqNullable parseStr o "custom_banner_hash"
  let premium_subscription_count ← reqField parseNum o "premium_subscription_count"
  let premium_tier ← reqField parseNum o "premium_tier"
  pure (traits, features, visibility, custom_banner_hash,
    premium_subscription_count, premium_tier)

/-- ProfileSchema from v9_schema.ts. -/
def ProfileSchema (j : Json) : Option ProfileV9 :=
  match j with
  | .obj o => do
    let (id, name, icon_hash, member_count, online_count, description,
      banner_hash) ← profileFieldsHead o
    let (game_application_ids, tag, badge, badge_color_primary,
      badge_color_secondary, badge_hash) ← profileFieldsMid o
    let (traits, features, visibility, custom_banner_hash,
      premium_subscription_count, premium_tier) ← profileFieldsTail o
    let game_activity := unknownField o "game_activity"
    pure { id, name, icon_hash, member_count, online_count, description,
           banner_hash, game_application_ids, game_activity, tag, badge,
           badge_color_primary, badge_color_secondary, badge_hash, traits,
           features, visibility, custom_banner_hash,
           premium_subscription_count, premium_tier }
  | _ => none

/-- First half of DiscordInviteSchemaV9's fields. -/
def inviteFieldsHead (o : List (String × Json)) :
    Option (Int × String × UserV9 × Option String × GuildV9) := do
  let type ← reqField parseNum o "type"
  let code ← reqField parseStr o "code"
  let inviter ← reqField UserSchema o "inviter"
  let expires_at ← reqNullable parseStr o "expires_at"
  let guild ← reqField GuildSchema o "guild"
  pure (type, code, inviter, expires_at, guild)

/-- Second half of DiscordInviteSchemaV9's fields. -/
def inviteFieldsTail (o : List (String × Json)) :
    Option (String × ChannelV9 × ProfileV9 × Option Int × Option Int) := do
  let guild_id ← reqField parseStr o "guild_id"
  let channel ← reqField ChannelSchema o "channel"
  let profile ← reqField ProfileSchema o "profile"
  let approximate_member_count ← optField parseNum o "approximate_member_count"
  let approximate_presence_count ← optField parseNum o "approximate_presence_count"
  pure (guild_id, channel, profile, approximate_member_count,
    approximate_presence_count)

/-- DiscordInviteSchemaV9 from v9_schema.ts (safeParse: some on success,
none on any structural mismatch; no partial value is ever produced).
Note that the inviter field is required by the schema: it is neither
optional nor nullable. -/
def DiscordInviteSchemaV9 (j : Json) : Option DiscordInviteV9 :=
  match j with
  | .obj o => do
    let (type, code, inviter, expires_at, guild) ← inviteFieldsHead o
    let (guild_id, channel, profile, approximate_member_count,
      approximate_presence_count) ← inviteFieldsTail o
    pure { type, code, inviter, expires_at, guild, guild_id, channel, profile,
           approximate_member_count, approximate_presence_count }
  | _ => none

/-- Enum AllowedExtensions from v9.ts. -/
inductive AllowedExtensions where
  | webp
  | png
  | jpg
  | jpeg
  | gif
deriving DecidableEq

/-- The string value of an AllowedExtensions member. -/
def AllowedExtensions.value : AllowedExtensions → String
  | .webp => "webp"
  | .png => "png"
  | .jpg => "jpg"
  | .jpeg => "jpeg"
  | .gif => "gif"

/-- Enum RessourceType from v9.ts. -/
inductive RessourceType where
  | avatars
  | banners
  | icons
  | splashes
deriving DecidableEq

/-- The string value of a RessourceType member. -/
def RessourceType.value : RessourceType → String
  | .avatars => "avatars"
  | .banners => "banners"
  | .icons => "icons"
  | .splashes => "splashes"

/-- ImageUrlOptions from v9.ts. A size of 0 is representable (the TS field is
size?: number) and is falsy in JavaScript. -/
structure ImageUrlOptions where
  size : Option Int := none
  extension : Option AllowedExtensions := none

/-- The size query suffix: the source computes
args.size ? "?size=" + args.size : "", where a supplied 0 is falsy. -/
def sizeSuffix : Option Int → String
  | some n => if n = 0 then "" else "?size=" ++ toString n
  | none => ""

/-- The closure returned by ImageGetter, reified as the value object holding
its three captured parameters. -/
structure ImageGetterFunction where
  mediaType : RessourceType
  userId : String
  ressourceId : String
deriving DecidableEq

/-- ImageGetter from v9.ts: captures (mediaType, userId, ressourceId). -/
def ImageGetter (mediaType : RessourceType) (userId ressourceId : String) :
    ImageGetterFunction :=
  { mediaType, userId, ressourceId }

/-- Applying the closure returned by ImageGetter to an options record. -/
def ImageGetterFunction.build (f : ImageGetterFunction) (args : ImageUrlOptions) :
    String :=
  let size := sizeSuffix args.size
  let extension := match args.extension with
    | some e => e
    | none => AllowedExtensions.png
  "https://cdn.discordapp.com/" ++ f.mediaType.value ++ "/" ++ f.userId ++ "/"
    ++ f.ressourceId ++ "." ++ extension.value ++ size

/-- GifUrlOption from the ImageGifgetter revision of v9.ts: like
ImageUrlOptions but with backupExtension in place of extension. -/
structure GifUrlOption where
  size : Option Int := none
  backupExtension : Option AllowedExtensions := none

/-- The HTTP method used by the animated-variant existence probe. -/
inductive ProbeMethod where
  | head
  | get
deriving DecidableEq

/-- The upstream response to the existence probe. The body is carried so the
model can state that it is never inspected. -/
structure ProbeResponse where
  status : Nat
  body : String

/-- response.ok of the Fetch API: status in the range 200-299. -/
def ProbeResponse.ok (r : ProbeResponse) : Bool :=
  200 ≤ r.status && r.status ≤ 299

/-- The closure returned by ImageGifgetter, reified as the value object
holding its three captured parameters. -/
structure GifGetterFunction where
  mediaType : RessourceType
  userId : String
  ressourceId : String
deriving DecidableEq

/-- ImageGifgetter from v9.ts: captures (mediatype, userId, ressourceId). -/
def ImageGifgetter (mediatype : RessourceType) (userId ressourceId : String) :
    GifGetterFunction :=
  { mediaType := mediatype, userId, ressourceId }

/-- Applying the closure returned by ImageGifgetter: the probe request
(checkMethod against the gif URL) is answered by resp; a 2xx answer selects
the gif URL, anything else the backup-extension URL. Only resp.status is
consulted; resp.body is never parsed. -/
def GifGetterFunction.probedUrl (f : GifGetterFunction) (args : GifUrlOption)
    (_checkMethod : ProbeMethod) (resp : ProbeResponse) : String :=
  let size := sizeSuffix args.size
  let backUpExtension := match args.backupExtension with
    | some e => e
    | none => AllowedExtensions.png
  let link := "https://cdn.discordapp.com/" ++ f.mediaType.value ++ "/"
    ++ f.userId ++ "/" ++ f.ressourceId ++ "."
  if resp.ok then link ++ AllowedExtensions.gif.value ++ size
  else link ++ backUpExtension.value ++ size

/-- JavaScript template-literal coercion of a nullable string: null prints
as the string "null". This is what v9.ts does when it interpolates a
null resource hash into a CDN URL. -/
def jsInterpolate : Option String → String
  | some s => s
  | none => "null"

/-- The badge sub-object of the guild part of DiscordInviteStatusV9. -/
structure BadgeStatus where
  count : Int
  colorPrimary : String
  colorSecondary : String
  hash : Option String

/-- The guild part of DiscordInviteStatusV9 (the transformed output). -/
structure GuildStatus where
  id : String
  name : String
  description : Option String
  member : Int
  online : Int
  icon : ImageGetterFunction
  banner : Option ImageGetterFunction
  features : List String
  verificationLevel : Int
  vanityUrl : Option String
  nsfwLevel : Int
  nsfw : Bool
  premiumSubscription : Int
  premiumTier : Int
  tag : Option String
  badge : BadgeStatus
  traits : List Json
  visibility : Int

/-- The channel part of DiscordInviteStatusV9. -/
structure ChannelStatus where
  id : String
  type : Int
  name : String

/-- The inviter part of DiscordInviteStatusV9. -/
structure InviterStatus where
  id : String
  username : String
  globalName : String
  avatar : ImageGetterFunction
  banner : Option ImageGetterFunction
  discriminator : String
  flags : Int
  publicFlags : Int
  accentColor : Option Int
  bannerColor : Option String

/-- DiscordInviteStatusV9 from v9.ts: the public output shape. expiresAt
keeps the ISO string (the source wraps it in a Date object). -/
structure DiscordInviteStatusV9 where
  code : String
  expiresAt : Option String
  guild : GuildStatus
  channel : ChannelStatus
  inviter : Option InviterStatus

/-- The guild field of convertInviteStatusV9. JavaScript truthiness is made
explicit: a null or empty splash hash is falsy, so banner is null for it;
the icon getter is built unconditionally, interpolating a null icon hash
as the string "null". -/
def convertGuild (data : DiscordInviteV9) : GuildStatus :=
  { id := data.guild.id
    name := data.guild.name
    icon := ImageGetter .icons data.guild.id (jsInterpolate data.guild.icon)
    banner := match data.guild.splash with
      | some s => if s = "" then none else some (ImageGetter .splashes data.guild.id s)
      | none => none
    member := data.profile.member_count
    online := data.profile.online_count
    description := data.guild.description
    features := data.guild.features
    verificationLevel := data.guild.verification_level
    vanityUrl := data.guild.vanity_url_code
    nsfwLevel := data.guild.nsfw_level
    nsfw := data.guild.nsfw
    premiumSubscription := data.guild.premium_subscription_count
    premiumTier := data.guild.premium_tier
    tag := data.profile.tag
    badge :=
      { count := data.profile.badge
        colorPrimary := data.profile.badge_color_primary
        colorSecondary := data.profile.badge_color_secondary
        hash := data.profile.badge_hash }
    traits := data.profile.traits
    visibility := data.profile.visibility }

/-- The inviter field of convertInviteStatusV9. The source guards with
"data.inviter ?", but the validated payload's inviter is a required object,
hence always truthy, so the null branch is unreachable and the result is
always present. global_name || "" collapses null (and the empty string) to
""; accent_color || null collapses 0 and null to null; banner_color ? ...
: null collapses the empty string and null to null. -/
def convertInviter (data : DiscordInviteV9) : Option InviterStatus :=
  some
    { id := data.inviter.id
      username := data.inviter.username
      globalName := match data.inviter.global_name with
        | some s => s
        | none => ""
      avatar := ImageGetter .avatars data.inviter.id (jsInterpolate data.inviter.avatar)
      banner := match data.inviter.banner with
        | some b => if b = "" then none else some (ImageGetter .banners data.inviter.id b)
        | none => none
      discriminator := data.inviter.discriminator
      flags := data.inviter.flags
      publicFlags := data.inviter.public_flags
      accentColor := match data.inviter.accent_color with
        | some n => if n = 0 then none else some n
        | none => none
      bannerColor := match data.inviter.banner_color with
        | some c => if c = "" then none else some c
        | none => none }

/-- convertInviteStatusV9 from v9.ts: pure mapping from the validated
payload to the public output shape. -/
def convertInviteStatusV9 (data : DiscordInviteV9) : DiscordInviteStatusV9 :=
  { code := data.code
    expiresAt := match data.expires_at with
      | some s => if s = "" then none else some s
      | none => none
    guild := convertGuild data
    channel :=
      { id := data.channel.id
        type := data.channel.type
        name := data.channel.name }
    inviter := convertInviter data }

/-- The kinds of failure fetchInviteStatusV9 can surface: a non-2xx HTTP
response (transport, carrying the status text), an undecodable body
(decode), or a schema mismatch (validation). -/
inductive FetchError where
  | transport (msg : String)
  | decode (msg : String)
  | validation (msg : String)
deriving DecidableEq

/-- The single upstream HTTP response a call to fetchInviteStatusV9
consumes. body is the outcome of response.json(): Except.error when the
body is not valid JSON. -/
structure HttpResponse where
  status : Nat
  statusText : String
  body : Except String Json

/-- response.ok of the Fetch API: status in the range 200-299. -/
def HttpResponse.ok (r : HttpResponse) : Bool :=
  200 ≤ r.status && r.status ≤ 299

/-- fetchInviteStatusV9 from v9.ts, as a function of the one upstream
response it consumes: a non-ok status throws before the body is touched;
then the body is decoded as JSON; then safeParse validates it; only a
fully validated payload is returned. -/
def fetchInviteStatusV9 (resp : HttpResponse) : Except FetchError DiscordInviteV9 :=
  if resp.ok then
    match resp.body with
    | .error e => .error (.decode e)
    | .ok j =>
      match DiscordInviteSchemaV9 j with
      | none => .error (.validation "Invalid data structure")
      | some parsedData => .ok parsedData
  else
    .error (.transport ("Failed to fetch invite status: " ++ resp.statusText))

/-- getInviteStatusV9 from v9.ts: fetch then convert. -/
def getInviteStatusV9 (resp : HttpResponse) : Except FetchError DiscordInviteStatusV9 :=
  (fetchInviteStatusV9 resp).map convertInviteStatusV9

/-- The character class of the invite id in the source regex:
one of a-z, A-Z, 0-9, the hyphen or the underscore. -/
def isInviteIdChar (c : Char) : Bool :=
  ('a' ≤ c && c ≤ 'z') || ('A' ≤ c && c ≤ 'Z') || ('0' ≤ c && c ≤ '9')
    || c = '-' || c = '_'

/-- Strips an expected literal from the front of the input, failing on the
first mismatch. -/
def stripLit : List Char → List Char → Option (List Char)
  | [], l => some l
  | _ :: _, [] => none
  | c :: cs, d :: ds => if c = d then stripLit cs ds else none

/-- The id-and-tail part of the source regex: a nonempty run of id
characters then an optional single trailing slash, anchored at the end. -/
def extractIdTail (rest : List Char) : Option (List Char) :=
  let id := rest.takeWhile isInviteIdChar
  let tail := rest.dropWhile isInviteIdChar
  if id ≠ [] ∧ (tail = [] ∨ tail = ['/']) then some id else none

/-- The host alternation of the source regex:
(discord.gg or discord.com/invite) followed by a slash. The two literals
diverge at their ninth character, so first-match is exact. -/
def stripHost (r : List Char) : Option (List Char) :=
  match stripLit "discord.gg/".data r with
  | some rest => some rest
  | none => stripLit "discord.com/invite/".data r

/-- The whole anchored regex of extractDiscordInviteId: the literal
https prefix, an optional www. (never a prefix of either host literal, so
first-match is exact), the host alternation, then the id and optional
trailing slash. -/
def extractCore (l : List Char) : Option (List Char) :=
  match stripLit "https://".data l with
  | none => none
  | some r =>
    let r := (stripLit "www.".data r).getD r
    match stripHost r with
    | none => none
    | some rest => extractIdTail rest

/-- extractDiscordInviteId from the tools module: some id when the URL
matches one of the two recognized shapes, none (the thrown error) when it
matches neither. The function is pure and synchronous: no request is
issued on either path. -/
def extractDiscordInviteId (url : String) : Option String :=
  (extractCore url.data).map fun l => { data := l }

/-- The literal prefix https discord.gg slash. -/
def pDgg : List Char := "https://discord.gg/".data

/-- The literal prefix https www.discord.gg slash. -/
def pWwwDgg : List Char := "https://www.discord.gg/".data

/-- The literal prefix https discord.com/invite slash. -/
def pDcom : List Char := "https://discord.com/invite/".data

/-- The literal prefix https www.discord.com/invite slash. -/
def pWwwDcom : List Char := "https://www.discord.com/invite/".data

/-- The four concrete literal prefixes a matching invite URL can start
with, spelled out from the regex alternation. -/
def invitePrefixes : List (List Char) := [pDgg, pWwwDgg, pDcom, pWwwDcom]

/-- Declarative reading of the invite-link regex: the URL is one of the
four recognized prefixes, followed by a nonempty id over the id alphabet,
followed by nothing or a single slash, and the extracted value is exactly
that trailing id segment. -/
def InviteLinkShape (url id : String) : Prop :=
  id.data ≠ [] ∧ id.data.all isInviteIdChar ∧
    ∃ p ∈ invitePrefixes,
      url.data = p ++ id.data ∨ url.data = p ++ id.data ++ ['/']

/-- Spec-side size suffix: present exactly when a size was supplied. -/
def specSizeSuffix : Option Int → String
  | some n => "?size=" ++ toString n
  | none => ""

/-- Spec-side URL pattern: CDN base, category, owner id, resource hash,
extension, optional size query. Written from the spec's words, to be
compared with the source's construction. -/
def specImageUrl (m : RessourceType) (ownerId hash : String)
    (ext : AllowedExtensions) (size : Option Int) : String :=
  "https://cdn.discordapp.com/" ++ m.value ++ "/" ++ ownerId ++ "/" ++ hash
    ++ "." ++ ext.value ++ specSizeSuffix size

/-- A concrete upstream user object accepted by UserSchema. -/
def jUser : Json :=
  .obj [("id", .str "u1"), ("username", .str "alice"), ("avatar", .str "ah"),
        ("discriminator", .str "0"), ("public_flags", .num 0),
        ("flags", .num 0), ("banner", .null), ("accent_color", .null),
        ("global_name", .str "Alice"), ("banner_color", .null)]

/-- A concrete upstream guild object accepted by GuildSchema, with the icon
hash left as a parameter. -/
def jGuildIcon (icon : Json) : Json :=
  .obj [("id", .str "g1"), ("name", .str "Guild"), ("splash", .null),
        ("banner", .null), ("description", .null), ("icon", icon),
        ("features", .arr []), ("verification_level", .num 0),
        ("vanity_url_code", .null), ("nsfw_level", .num 0),
        ("nsfw", .bool false), ("premium_subscription_count", .num 0),
        ("premium_tier", .num 0)]

/-- A concrete upstream channel object accepted by ChannelSchema. -/
def jChannel : Json :=
  .obj [("id", .str "c1"), ("type", .num 0), ("name", .str "general")]

/-- A concrete upstream profile object accepted by ProfileSchema, with the
two counts left as parameters. -/
def jProfile (memberCount onlineCount : Int) : Json :=
  .obj [("id", .str "g1"), ("name", .str "Guild"), ("icon_hash", .null),
        ("member_count", .num memberCount), ("online_count", .num onlineCount),
        ("description", .null), ("banner_hash", .null),
        ("game_application_ids", .arr []), ("tag", .null), ("badge", .num 0),
        ("badge_color_primary", .str "#ffffff"),
        ("badge_color_secondary", .str "#000000"), ("badge_hash", .null),
        ("traits", .arr []), ("features", .arr []), ("visibility", .num 1),
        ("custom_banner_hash", .null),
        ("premium_subscription_count", .num 0), ("premium_tier", .num 0)]

/-- A concrete upstream invite payload, parameterized by the presence of
the inviter, the guild object and the two counts. -/
def mkInvitePayload (inviter : Option Json) (guild : Json)
    (memberCount onlineCount : Int) : Json :=
  .obj ((match inviter with
          | some u => [("inviter", u)]
          | none => []) ++
        [("type", .num 0), ("code", .str "abc123"), ("expires_at", .null),
         ("guild", guild), ("guild_id", .str "g1"), ("channel", jChannel),
         ("profile", jProfile memberCount onlineCount)])

/-- A fully valid upstream payload. -/
def jInviteOk : Json := mkInvitePayload (some jUser) (jGuildIcon (.str "ih")) 10 5

/-- The same payload with the inviter key removed: a vanity-style invite. -/
def jInviteNoInviter : Json := mkInvitePayload none (jGuildIcon (.str "ih")) 10 5

/-- A valid payload whose online count exceeds its member count. -/
def jInviteBadCounts : Json := mkInvitePayload (some jUser) (jGuildIcon (.str "ih")) 3 5

/-- A valid payload whose guild icon hash is null. -/
def jInviteIconNull : Json := mkInvitePayload (some jUser) (jGuildIcon .null) 10 5

/-- A concrete validated user, for instantiating universally quantified
theorems about the transformer. -/
def sampleUser : UserV9 :=
  { id := "u1", username := "alice", avatar := some "ah",
    discriminator := "0", public_flags := 0, flags := 0, banner := none,
    accent_color := none, global_name := some "Alice",
    avatar_decoration_data := none, collectibles := none,
    display_name_styles := none, banner_color := none, clan := none,
    primary_guild := none }

/-- A concrete validated guild. -/
def sampleGuild : GuildV9 :=
  { id := "g1", name := "Guild", splash := none, banner := none,
    description := none, icon := some "ih", features := [],
    verification_level := 0, vanity_url_code := none, nsfw_level := 0,
    nsfw := false, premium_subscription_count := 0, premium_tier := 0 }

/-- A concrete validated profile. -/
def sampleProfile : ProfileV9 :=
  { id := "g1", name := "Guild", icon_hash := none, member_count := 10,
    online_count := 5, description := none, banner_hash := none,
    game_application_ids := [], game_activity := none, tag := none,
    badge := 0, badge_color_primary := "#ffffff",
    badge_color_secondary := "#000000", badge_hash := none, traits := [],
    features := [], visibility := 1, custom_banner_hash := none,
    premium_subscription_count := 0, premium_tier := 0 }

/-- A concrete validated invite payload. -/
def sampleInvite : DiscordInviteV9 :=
  { type := 0, code := "abc123", inviter := sampleUser, expires_at := none,
    guild := sampleGuild, guild_id := "g1",
    channel := { id := "c1", type := 0, name := "general" },
    profile := sampleProfile, approximate_member_count := none,
    approximate_presence_count := none }

/-- sampleInvite with every optional image hash removed. -/
def sampleInviteNoHashes : DiscordInviteV9 :=
  { sampleInvite with
    guild := { sampleGuild with splash := none, icon := none },
    inviter := { sampleUser with avatar := none, banner := none } }

/-- Claim C2 (amended): the transformer copies the profile's member_count
and online_count into the result verbatim; the schema validates them only
as numbers, so members >= onlines >= 0 holds in the result exactly when
the upstream payload already satisfied it. -/
theorem convert_counts_verbatim (d : DiscordInviteV9) :
    (convertInviteStatusV9 d).guild.member = d.profile.member_count ∧
    (convertInviteStatusV9 d).guild.online = d.profile.online_count :=
  ⟨rfl, rfl⟩

/-- Claim C2 counterexample: a payload with member_count 3 and
online_count 5 is accepted by the schema validator, and the transformed
result has member 3 < online 5, refuting members >= onlines. -/
theorem convert_counts_violation_example :
    (DiscordInviteSchemaV9 jInviteBadCounts).map
        (fun d => ((convertInviteStatusV9 d).guild.member,
                   (convertInviteStatusV9 d).guild.online))
      = some (3, 5)
    ∧ ¬((3 : Int) ≥ 5) :=
  ⟨rfl, by decide⟩

/-- Claim C9: for every validated payload, an absent (null) global_name
maps to the empty string in the result's inviter.globalName. -/
theorem convert_globalName_absent_empty (d : DiscordInviteV9)
    (h : d.inviter.global_name = none) :
    ((convertInviteStatusV9 d).inviter.map fun i => i.globalName) = some "" := by
  simp [convertInviteStatusV9, convertInviter, h]

/-- Witness for C9 at a concrete payload with global_name null. -/
theorem convert_globalName_absent_empty_witness :
    ({ sampleInvite with
        inviter := { sampleUser with global_name := none } } : DiscordInviteV9).inviter.global_name
      = none
    ∧ ((convertInviteStatusV9
          { sampleInvite with
            inviter := { sampleUser with global_name := none } }).inviter.map
        fun i => i.globalName) = some "" :=
  ⟨rfl, convert_globalName_absent_empty _ rfl⟩

/-- Claim C10: the transformer's accent_color || null coercion collapses
the colour 0 (accepted by the schema) into null, the same output as an
absent accent colour. -/
theorem convert_accentColor_zero_collapses (d : DiscordInviteV9)
    (h : d.inviter.accent_color = some 0 ∨ d.inviter.accent_color = none) :
    ((convertInviteStatusV9 d).inviter.map fun i => i.accentColor) = some none := by
  rcases h with h | h <;> simp [convertInviteStatusV9, convertInviter, h]

/-- Witness for C10 at a concrete payload with accent_color 0. -/
theorem convert_accentColor_zero_collapses_witness :
    ({ sampleInvite with
        inviter := { sampleUser with accent_color := some 0 } } : DiscordInviteV9).inviter.accent_color
      = some 0
    ∧ ((convertInviteStatusV9
          { sampleInvite with
            inviter := { sampleUser with accent_color := some 0 } }).inviter.map
        fun i => i.accentColor) = some none :=
  ⟨rfl, convert_accentColor_zero_collapses _ (Or.inl rfl)⟩

/-- Claim C1 (amended): the null-hash guard holds only for the guild
banner/splash slot and the inviter banner slot; the guild icon and the
inviter avatar getters are constructed unconditionally, interpolating a
null hash as the string "null" into the locator. -/
theorem convert_null_hash_fields (d : DiscordInviteV9) :
    (d.guild.splash = none → (convertInviteStatusV9 d).guild.banner = none)
    ∧ (d.inviter.banner = none →
        ((convertInviteStatusV9 d).inviter.map fun i => i.banner) = some none)
    ∧ (d.guild.icon = none →
        (convertInviteStatusV9 d).guild.icon = ImageGetter .icons d.guild.id "null")
    ∧ (d.inviter.avatar = none →
        ((convertInviteStatusV9 d).inviter.map fun i => i.avatar)
          = some (ImageGetter .avatars d.inviter.id "null")) := by
  refine ⟨fun h => ?_, fun h => ?_, fun h => ?_, fun h => ?_⟩ <;>
    simp [convertInviteStatusV9, convertGuild, convertInviter, jsInterpolate, h]

/-- Witness for the amended C1 at a concrete payload with every optional
hash null. -/
theorem convert_null_hash_fields_witness :
    sampleInviteNoHashes.guild.splash = none
    ∧ sampleInviteNoHashes.guild.icon = none
    ∧ (convertInviteStatusV9 sampleInviteNoHashes).guild.banner = none
    ∧ (convertInviteStatusV9 sampleInviteNoHashes).guild.icon
        = ImageGetter .icons "g1" "null" := by
  have h := convert_null_hash_fields sampleInviteNoHashes
  exact ⟨rfl, rfl, h.1 rfl, (h.2.2.1 rfl).trans rfl⟩

/-- Claim C1 counterexample: a payload whose guild icon hash is null is
accepted by the validator, yet the transformed guild.icon is a locator
(not null) and building it yields a malformed URL containing the string
"null" as the hash. -/
theorem convert_icon_null_hash_url :
    (DiscordInviteSchemaV9 jInviteIconNull).map
        (fun d => ((convertInviteStatusV9 d).guild.icon.build
                     { size := none, extension := none },
                   d.guild.icon))
      = some ("https://cdn.discordapp.com/icons/g1/null.png", none) :=
  rfl

/-- Claim C3 (the code violates it): the schema requires the inviter
field, so the vanity-style payload without an inviter is rejected and the
fetch pipeline fails with a validation error instead of succeeding with a
null inviter; the same payload with an inviter present validates fine. -/
theorem schema_rejects_missing_inviter :
    DiscordInviteSchemaV9 jInviteNoInviter = none
    ∧ fetchInviteStatusV9 { status := 200, statusText := "OK", body := .ok jInviteNoInviter }
        = .error (.validation "Invalid data structure")
    ∧ (DiscordInviteSchemaV9 jInviteOk).isSome = true :=
  ⟨rfl, rfl, rfl⟩

/-- Claim C4: whenever the upstream response is 2xx, its body decodes to a
JSON value, and the v9 schema rejects that value, the fetch call fails
with a single validation error and never returns a (partial) payload. -/
theorem fetch_validation_failure_no_partial_result (resp : HttpResponse) (j : Json)
    (hok : resp.ok = true) (hbody : resp.body = .ok j)
    (hval : DiscordInviteSchemaV9 j = none) :
    fetchInviteStatusV9 resp = .error (.validation "Invalid data structure")
    ∧ ∀ d, fetchInviteStatusV9 resp ≠ .ok d := by
  have h1 : fetchInviteStatusV9 resp = .error (.validation "Invalid data structure") := by
    simp [fetchInviteStatusV9, hok, hbody, hval]
  exact ⟨h1, fun d => by simp [h1]⟩

/-- Witness for C4 at a 200 response whose body is an empty JSON object. -/
theorem fetch_validation_failure_no_partial_result_witness :
    ({ status := 200, statusText := "OK", body := .ok (.obj []) } : HttpResponse).ok = true
    ∧ DiscordInviteSchemaV9 (.obj []) = none
    ∧ fetchInviteStatusV9 { status := 200, statusText := "OK", body := .ok (.obj []) }
        = .error (.validation "Invalid data structure") :=
  ⟨rfl, rfl,
    (fetch_validation_failure_no_partial_result
      { status := 200, statusText := "OK", body := .ok (.obj []) }
      (.obj []) rfl rfl rfl).1⟩

/-- Claim C5: a non-2xx upstream status makes the fetch call fail with a
transport error carrying the HTTP status text, and the outcome is
independent of the response body, so no JSON decoding is ever attempted
on that path (the model consumes exactly one response, so nothing is
retried). -/
theorem fetch_non2xx_transport_before_decode (status : Nat) (st : String)
    (b₁ b₂ : Except String Json) (h : ¬(200 ≤ status ∧ status ≤ 299)) :
    fetchInviteStatusV9 { status, statusText := st, body := b₁ }
      = .error (.transport ("Failed to fetch invite status: " ++ st))
    ∧ fetchInviteStatusV9 { status, statusText := st, body := b₁ }
      = fetchInviteStatusV9 { status, statusText := st, body := b₂ } := by
  have hok : ∀ b : Except String Json,
      ({ status, statusText := st, body := b } : HttpResponse).ok = false := by
    intro b
    simp only [HttpResponse.ok, Bool.and_eq_false_iff, decide_eq_false_iff_not]
    omega
  constructor
  · simp [fetchInviteStatusV9, hok b₁]
  · simp [fetchInviteStatusV9, hok b₁, hok b₂]

/-- Witness for C5 at a 404 response with an undecodable body. -/
theorem fetch_non2xx_transport_before_decode_witness :
    ¬(200 ≤ 404 ∧ 404 ≤ 299)
    ∧ fetchInviteStatusV9 { status := 404, statusText := "Not Found", body := .error "boom" }
        = .error (.transport "Failed to fetch invite status: Not Found") := by
  refine ⟨by decide, ?_⟩
  have h := fetch_non2xx_transport_before_decode 404 "Not Found"
    (.error "boom") (.ok .null) (by decide)
  exact h.1.trans rfl

/-- Claim C7: the static locator returns exactly the CDN URL pattern
category/ownerId/hash.extension with the extension defaulting to png and
the size query present iff a size was supplied (sizes here range over the
spec's option type, whose size is a positive integer; being a pure
function of its inputs, the construction is deterministic). -/
theorem imageGetter_url_pattern (m : RessourceType) (ownerId hash : String)
    (args : ImageUrlOptions) (hpos : ∀ n, args.size = some n → 0 < n) :
    (ImageGetter m ownerId hash).build args
      = specImageUrl m ownerId hash (args.extension.getD .png) args.size := by
  rcases args with ⟨size, ext⟩
  rcases size with _ | n
  · rcases ext with _ | e <;>
      simp [ImageGetter, ImageGetterFunction.build, specImageUrl, sizeSuffix, specSizeSuffix]
  · have hn : n ≠ 0 := by
      have := hpos n rfl
      omega
    rcases ext with _ | e <;>
      simp [ImageGetter, ImageGetterFunction.build, specImageUrl, sizeSuffix, specSizeSuffix, hn]

/-- Witness for C7 at a concrete locator with size 256 and default
extension. -/
theorem imageGetter_url_pattern_witness :
    (0 : Int) < 256
    ∧ (ImageGetter .icons "g1" "ih").build { size := some 256, extension := none }
        = "https://cdn.discordapp.com/icons/g1/ih.png?size=256" := by
  refine ⟨by decide, ?_⟩
  have h := imageGetter_url_pattern .icons "g1" "ih" { size := some 256, extension := none }
    (by intro n hn; injection hn with hn; omega)
  exact h.trans rfl

/-- Claim C6: the animated-variant locator returns the gif URL when the
existence probe answers 2xx and the backup-extension URL (defaulting to
png) for any non-2xx status, size suffix included iff requested (sizes
over the spec's positive option type); the probe response body is never
inspected. -/
theorem imageGifgetter_probe_fallback (m : RessourceType) (ownerId hash : String)
    (args : GifUrlOption) (method : ProbeMethod) (resp : ProbeResponse)
    (hpos : ∀ n, args.size = some n → 0 < n) :
    ((ImageGifgetter m ownerId hash).probedUrl args method resp
      = if resp.ok
        then specImageUrl m ownerId hash .gif args.size
        else specImageUrl m ownerId hash (args.backupExtension.getD .png) args.size)
    ∧ ∀ b₁ b₂ : String,
        (ImageGifgetter m ownerId hash).probedUrl args method { status := resp.status, body := b₁ }
          = (ImageGifgetter m ownerId hash).probedUrl args method { status := resp.status, body := b₂ } := by
  constructor
  · rcases args with ⟨size, backup⟩
    have hsz : sizeSuffix size = specSizeSuffix size := by
      rcases size with _ | n
      · rfl
      · have hn : n ≠ 0 := by
          have := hpos n rfl
          omega
        simp [sizeSuffix, specSizeSuffix, hn]
    rcases hok : resp.ok with _ | _ <;> rcases backup with _ | e <;>
      simp [ImageGifgetter, GifGetterFunction.probedUrl, specImageUrl, hok, hsz]
  · intro b₁ b₂
    rfl

/-- Witness for C6 at a concrete locator whose probe answers 404: the
result carries the requested webp backup extension and size 64. -/
theorem imageGifgetter_probe_fallback_witness :
    (0 : Int) < 64
    ∧ ({ status := 404, body := "unknown resource" } : ProbeResponse).ok = false
    ∧ (ImageGifgetter .icons "g1" "ih").probedUrl
        { size := some 64, backupExtension := some .webp } .head
        { status := 404, body := "unknown resource" }
        = "https://cdn.discordapp.com/icons/g1/ih.webp?size=64" := by
  refine ⟨by decide, rfl, ?_⟩
  have h := imageGifgetter_probe_fallback .icons "g1" "ih"
    { size := some 64, backupExtension := some .webp } .head
    { status := 404, body := "unknown resource" }
    (by intro n hn; injection hn with hn; omega)
  exact h.1.trans rfl

/-- stripLit succeeds exactly on lists that extend the expected literal,
returning the remainder. -/
theorem stripLit_eq_some {p l r : List Char} :
    stripLit p l = some r ↔ l = p ++ r := by
  induction p generalizing l with
  | nil => simp [stripLit]
  | cons c cs ih =>
    cases l with
    | nil => simp [stripLit]
    | cons d ds =>
      by_cases h : c = d
      · subst h
        simp [stripLit, ih]
      · simp only [stripLit, if_neg h]
        constructor
        · intro h'
          exact absurd h' (by simp)
        · intro h'
          injection h' with h1 _
          exact absurd h1.symm h

/-- stripLit removes exactly the expected literal prefix. -/
theorem stripLit_append (p r : List Char) : stripLit p (p ++ r) = some r :=
  stripLit_eq_some.mpr rfl

/-- takeWhile keeps a list all of whose elements satisfy the predicate. -/
theorem takeWhile_eq_self_of_all {p : Char → Bool} {l : List Char}
    (h : ∀ a ∈ l, p a) : l.takeWhile p = l := by
  induction l with
  | nil => rfl
  | cons a t ih =>
    rw [List.takeWhile_cons_of_pos (h a (List.mem_cons_self a t))]
    rw [ih fun b hb => h b (List.mem_cons_of_mem a hb)]

/-- dropWhile drops a list all of whose elements satisfy the predicate. -/
theorem dropWhile_eq_nil_of_all {p : Char → Bool} {l : List Char}
    (h : ∀ a ∈ l, p a) : l.dropWhile p = [] := by
  induction l with
  | nil => rfl
  | cons a t ih =>
    rw [List.dropWhile_cons_of_pos (h a (List.mem_cons_self a t))]
    exact ih fun b hb => h b (List.mem_cons_of_mem a hb)

/-- Splitting an id run followed by a single slash. -/
theorem takeWhile_append_slash {l : List Char}
    (h : ∀ a ∈ l, isInviteIdChar a) :
    (l ++ ['/']).takeWhile isInviteIdChar = l
    ∧ (l ++ ['/']).dropWhile isInviteIdChar = ['/'] := by
  induction l with
  | nil => exact ⟨rfl, rfl⟩
  | cons a t ih =>
    have hpa : isInviteIdChar a := h a (List.mem_cons_self a t)
    have ih' := ih fun b hb => h b (List.mem_cons_of_mem a hb)
    constructor
    · rw [List.cons_append, List.takeWhile_cons_of_pos hpa, ih'.1]
    · rw [List.cons_append, List.dropWhile_cons_of_pos hpa, ih'.2]

/-- extractIdTail succeeds exactly on a nonempty id run followed by
nothing or one slash, returning the id. -/
theorem extractIdTail_eq_some {rest id : List Char} :
    extractIdTail rest = some id ↔
      id ≠ [] ∧ id.all isInviteIdChar = true
        ∧ (rest = id ∨ rest = id ++ ['/']) := by
  constructor
  · intro h
    simp only [extractIdTail] at h
    split at h
    · rename_i hc
      injection h with h'
      subst h'
      obtain ⟨hne, hd⟩ := hc
      refine ⟨hne, List.all_takeWhile, ?_⟩
      have hsplit := List.takeWhile_append_dropWhile (p := isInviteIdChar) (l := rest)
      rcases hd with hd | hd
      · left
        conv_lhs => rw [← hsplit]
        rw [hd, List.append_nil]
      · right
        conv_lhs => rw [← hsplit]
        rw [hd]
    · exact absurd h (by simp)
  · rintro ⟨hne, hall, hcase⟩
    have hmem : ∀ a ∈ id, isInviteIdChar a := by
      intro a ha
      exact List.all_eq_true.mp hall a ha
    rcases hcase with rfl | rfl
    · unfold extractIdTail
      rw [takeWhile_eq_self_of_all hmem, dropWhile_eq_nil_of_all hmem]
      simp [hne]
    · unfold extractIdTail
      rw [(takeWhile_append_slash hmem).1, (takeWhile_append_slash hmem).2]
      simp [hne]

/-- Computation rule: extractCore on the bare discord.gg prefix. -/
theorem extractCore_dgg (x : List Char) :
    extractCore (pDgg ++ x) = extractIdTail x :=
  rfl

/-- Computation rule: extractCore on the www discord.gg prefix. -/
theorem extractCore_www_dgg (x : List Char) :
    extractCore (pWwwDgg ++ x) = extractIdTail x :=
  rfl

/-- Computation rule: extractCore on the bare discord.com/invite prefix. -/
theorem extractCore_dcom (x : List Char) :
    extractCore (pDcom ++ x) = extractIdTail x :=
  rfl

/-- Computation rule: extractCore on the www discord.com/invite prefix. -/
theorem extractCore_www_dcom (x : List Char) :
    extractCore (pWwwDcom ++ x) = extractIdTail x :=
  rfl

/-- Regrouping rule: the discord.gg prefix splits after the scheme. -/
theorem pDgg_split (x : List Char) :
    pDgg ++ x = "https://".data ++ ("discord.gg/".data ++ x) :=
  rfl

/-- Regrouping rule: the www discord.gg prefix splits after the scheme and
the www label. -/
theorem pWwwDgg_split (x : List Char) :
    pWwwDgg ++ x = "https://".data ++ ("www.".data ++ ("discord.gg/".data ++ x)) :=
  rfl

/-- Regrouping rule: the discord.com/invite prefix splits after the
scheme. -/
theorem pDcom_split (x : List Char) :
    pDcom ++ x = "https://".data ++ ("discord.com/invite/".data ++ x) :=
  rfl

/-- Regrouping rule: the www discord.com/invite prefix splits after the
scheme and the www label. -/
theorem pWwwDcom_split (x : List Char) :
    pWwwDcom ++ x = "https://".data ++ ("www.".data ++ ("discord.com/invite/".data ++ x)) :=
  rfl

/-- extractCore succeeds exactly on the declarative reading of the source
regex: one of the four recognized prefixes, a nonempty id over the id
alphabet, then nothing or a single slash; the result is that id. -/
theorem extractCore_eq_some_iff {l id : List Char} :
    extractCore l = some id ↔
      id ≠ [] ∧ id.all isInviteIdChar = true ∧
        ∃ p ∈ invitePrefixes, l = p ++ id ∨ l = p ++ id ++ ['/'] := by
  constructor
  · intro h
    unfold extractCore at h
    cases h1 : stripLit "https://".data l with
    | none =>
      simp only [h1] at h
      exact Option.noConfusion h
    | some r1 =>
      simp only [h1] at h
      have hl : l = "https://".data ++ r1 := stripLit_eq_some.mp h1
      cases h2 : stripLit "www.".data r1 with
      | none =>
        simp only [h2, Option.getD_none] at h
        cases h3 : stripHost r1 with
        | none =>
          simp only [h3] at h
          exact Option.noConfusion h
        | some rest =>
          simp only [h3] at h
          obtain ⟨hne, hall, hrest⟩ := extractIdTail_eq_some.mp h
          unfold stripHost at h3
          cases h4 : stripLit "discord.gg/".data r1 with
          | some rest' =>
            rw [h4] at h3
            injection h3 with heq
            rw [heq] at h4
            have hr1 : r1 = "discord.gg/".data ++ rest := stripLit_eq_some.mp h4
            refine ⟨hne, hall, pDgg, by decide, ?_⟩
            rcases hrest with rfl | rfl
            · left
              rw [hl, hr1, pDgg_split]
            · right
              rw [hl, hr1, pDgg_split]
              simp only [List.append_assoc]
          | none =>
            rw [h4] at h3
            have hr1 : r1 = "discord.com/invite/".data ++ rest := stripLit_eq_some.mp h3
            refine ⟨hne, hall, pDcom, by decide, ?_⟩
            rcases hrest with rfl | rfl
            · left
              rw [hl, hr1, pDcom_split]
            · right
              rw [hl, hr1, pDcom_split]
              simp only [List.append_assoc]
      | some r2 =>
        simp only [h2, Option.getD_some] at h
        have hr12 : r1 = "www.".data ++ r2 := stripLit_eq_some.mp h2
        cases h3 : stripHost r2 with
        | none =>
          simp only [h3] at h
          exact Option.noConfusion h
        | some rest =>
          simp only [h3] at h
          obtain ⟨hne, hall, hrest⟩ := extractIdTail_eq_some.mp h
          unfold stripHost at h3
          cases h4 : stripLit "discord.gg/".data r2 with
          | some rest' =>
            rw [h4] at h3
            injection h3 with heq
            rw [heq] at h4
            have hr2 : r2 = "discord.gg/".data ++ rest := stripLit_eq_some.mp h4
            refine ⟨hne, hall, pWwwDgg, by decide, ?_⟩
            rcases hrest with rfl | rfl
            · left
              rw [hl, hr12, hr2, pWwwDgg_split]
            · right
              rw [hl, hr12, hr2, pWwwDgg_split]
              simp only [List.append_assoc]
          | none =>
            rw [h4] at h3
            have hr2 : r2 = "discord.com/invite/".data ++ rest := stripLit_eq_some.mp h3
            refine ⟨hne, hall, pWwwDcom, by decide, ?_⟩
            rcases hrest with rfl | rfl
            · left
              rw [hl, hr12, hr2, pWwwDcom_split]
            · right
              rw [hl, hr12, hr2, pWwwDcom_split]
              simp only [List.append_assoc]
  · rintro ⟨hne, hall, p, hp, hcase⟩
    have t0 : extractIdTail id = some id :=
      extractIdTail_eq_some.mpr ⟨hne, hall, Or.inl rfl⟩
    have t1 : extractIdTail (id ++ ['/']) = some id :=
      extractIdTail_eq_some.mpr ⟨hne, hall, Or.inr rfl⟩
    simp only [invitePrefixes, List.mem_cons, List.not_mem_nil, or_false] at hp
    rcases hp with rfl | rfl | rfl | rfl <;> rcases hcase with rfl | rfl <;>
      simp only [List.append_assoc, extractCore_dgg, extractCore_www_dgg,
        extractCore_dcom, extractCore_www_dcom, t0, t1]

/-- String-level characterization of the extractor's success. -/
theorem extractDiscordInviteId_some_iff (url id : String) :
    extractDiscordInviteId url = some id ↔ InviteLinkShape url id := by
  constructor
  · intro h
    obtain ⟨l, hl, hmk⟩ := Option.map_eq_some'.mp h
    have hdata : id.data = l := by
      rw [← hmk]
    rw [← hdata] at hl
    obtain ⟨hne, hall, p, hp, hcase⟩ := extractCore_eq_some_iff.mp hl
    exact ⟨hne, hall, p, hp, hcase⟩
  · rintro ⟨hne, hall, p, hp, hcase⟩
    have hcore : extractCore url.data = some id.data :=
      extractCore_eq_some_iff.mpr ⟨hne, hall, p, hp, hcase⟩
    unfold extractDiscordInviteId
    rw [hcore]
    rfl

/-- String-level characterization of the extractor's failure. -/
theorem extractDiscordInviteId_none_iff (url : String) :
    extractDiscordInviteId url = none ↔ ∀ id, ¬ InviteLinkShape url id := by
  constructor
  · intro h id hs
    have := (extractDiscordInviteId_some_iff url id).mpr hs
    rw [h] at this
    exact Option.noConfusion this
  · intro h
    cases hx : extractDiscordInviteId url with
    | none => rfl
    | some i => exact absurd ((extractDiscordInviteId_some_iff url i).mp hx) (h i)

/-- Claim C8: extractDiscordInviteId returns the trailing path segment for
the two recognized URL shapes (discord.gg and discord.com/invite,
optionally with a www label and a trailing slash) and fails — returning
none, the thrown error, before any network activity since the function is
pure — for exactly the URLs matching neither shape. -/
theorem extractDiscordInviteId_spec :
    extractDiscordInviteId "https://discord.gg/abc123" = some "abc123"
    ∧ extractDiscordInviteId "https://discord.com/invite/abc123" = some "abc123"
    ∧ extractDiscordInviteId "https://example.com/abc123" = none
    ∧ (∀ url id, extractDiscordInviteId url = some id ↔ InviteLinkShape url id)
    ∧ (∀ url, extractDiscordInviteId url = none ↔ ∀ id, ¬ InviteLinkShape url id) :=
  ⟨rfl, rfl, rfl, extractDiscordInviteId_some_iff, extractDiscordInviteId_none_iff⟩

end GuildPeek
